import Mathlib

/-!
Verification of the trends cache / fetch / filter core.

Shallow embedding of the server core of the AI News Aggregator repository:
the `GET /api/trends` route (in-memory single-slot cache, freshness gating,
cache-busting bypass, stale fallback, no-data failure), the upstream query
builder, and the AI-relevance repository filter, together with a
spec-modelled summarize router.

Modelling conventions:
* Times are UTC milliseconds since the Unix epoch, as `Int` (JS `Date.now()`).
  `Date` calendar operations (`getDate`/`setDate`/`toISOString`) are modelled
  in UTC: subtracting 7 calendar days is subtracting `7 * 86400000` ms.
* JS strings are `String`; `toLowerCase` is ASCII case folding per character;
  `includes` is substring containment.
* The upstream `fetch` is a parameter of the route function: an oracle value
  describing what the single upstream call would return (success with parsed
  items, a non-2xx response, or a thrown transport/parse error).
* The route returns the HTTP response, the cache state after the request, and
  whether the upstream call was performed.
-/

/-! ## JS string primitives -/

/-- ASCII `toLowerCase`, character by character (JS `String.prototype.toLowerCase`
restricted to the ASCII range used by the vocabulary). -/
def jsLower (s : String) : String :=
  ⟨s.data.map Char.toLower⟩

/-- `needle` occurs as a prefix of `hay` (character-wise). -/
def prefixAt (needle hay : List Char) : Bool :=
  match needle, hay with
  | [], _ => true
  | _ :: _, [] => false
  | a :: as, b :: bs => a == b && prefixAt as bs

/-- `needle` occurs as a contiguous substring of `hay`. -/
def containsSeq (needle : List Char) : List Char → Bool
  | [] => needle.isEmpty
  | c :: rest => prefixAt needle (c :: rest) || containsSeq needle rest

/-- JS `hay.includes(needle)`. -/
def jsIncludes (hay needle : String) : Bool :=
  containsSeq needle.data hay.data

/-- One-position match for the regex fragment `pre` `.` `post`: `pre`, then any
single character that is not a JS line terminator, then `post`. -/
def dotAt (pre post : List Char) (s : List Char) : Bool :=
  prefixAt pre s &&
    (match s.drop pre.length with
     | [] => false
     | c :: rest =>
        c != '\n' && c != '\r' && c != '\u2028' && c != '\u2029' &&
          prefixAt post rest)

/-- The regex fragment `pre` `.` `post` matches somewhere in the string. -/
def dotSeq (pre post : List Char) : List Char → Bool
  | [] => false
  | c :: rest => dotAt pre post (c :: rest) || dotSeq pre post rest

/-! ## Repository records and the AI-relevance filter
(`src/app/page.jsx`, trends route, lines 392-403) -/

/-- A GitHub repository item, after the source's `GitHubRepository` typedef.
`stargazers_count` is a non-negative integer (GitHub star count; the data-model
invariant `star count >= 0`), kept as `Nat`; the route's literal
`repo.stargazers_count >= 0` check is still embedded verbatim in the filter. -/
structure GitHubRepository where
  id : Int
  name : String
  full_name : String
  description : Option String
  stargazers_count : Nat
  html_url : String
  topics : List String
  updated_at : String
  language : Option String
  created_at : String
deriving DecidableEq, Repr

/-- The fixed AI topic vocabulary (`aiTopics` in the route). -/
def aiTopics : List String :=
  ["ai", "machine-learning", "llm", "artificial-intelligence", "deep-learning",
   "neural-network", "tensorflow", "pytorch", "opencv"]

/-- `hasAITopic`: some topic, lowercased, contains some lowercased vocabulary
entry as a substring. -/
def hasAITopic (r : GitHubRepository) : Bool :=
  r.topics.any fun topic =>
    aiTopics.any fun aiTopic => jsIncludes (jsLower topic) (jsLower aiTopic)

/-- The alternation `/(ai|artificial|intelligence|machine|learning|neural|deep|ml|nlp|computer.vision|data.science)/i`
applied to an already-lowercased string (on which the `i` flag is inert for the
ASCII alternatives): does any alternative match somewhere? `.` is the regex
any-character (bar line terminators). -/
def matchesAIRegex (s : String) : Bool :=
  jsIncludes s "ai" || jsIncludes s "artificial" || jsIncludes s "intelligence" ||
  jsIncludes s "machine" || jsIncludes s "learning" || jsIncludes s "neural" ||
  jsIncludes s "deep" || jsIncludes s "ml" || jsIncludes s "nlp" ||
  dotSeq "computer".data "vision".data s.data ||
  dotSeq "data".data "science".data s.data

/-- `nameOrDescHasAI`: the concatenation of name, a space and the description
(empty string when absent), lowercased, matches the AI word regex. -/
def nameOrDescHasAI (r : GitHubRepository) : Bool :=
  matchesAIRegex (jsLower (r.name ++ " " ++ r.description.getD ""))

/-- The filter predicate of the route:
`(hasAITopic || nameOrDescHasAI) && repo.stargazers_count >= 0`. -/
def trendsKeep (r : GitHubRepository) : Bool :=
  (hasAITopic r || nameOrDescHasAI r) && decide (0 ≤ r.stargazers_count)

/-- `filteredRepositories = repositories.filter(...)`. -/
def filteredRepositories (repositories : List GitHubRepository) :
    List GitHubRepository :=
  repositories.filter trendsKeep

/-! ## Calendar and ISO-8601 formatting (UTC model of JS `Date`) -/

/-- Civil date (year, month, day) from a count of days since 1970-01-01,
Gregorian calendar (Howard Hinnant's `civil_from_days`, exact for all days). -/
def civilFromDays (z0 : Int) : Int × Int × Int :=
  let z := z0 + 719468
  let era := z.ediv 146097
  let doe := z - era * 146097
  let yoe := (doe - doe.ediv 1460 + doe.ediv 36524 - doe.ediv 146096).ediv 365
  let y := yoe + era * 400
  let doy := doe - (365 * yoe + yoe.ediv 4 - yoe.ediv 100)
  let mp := (5 * doy + 2).ediv 153
  let d := doy - (153 * mp + 2).ediv 5 + 1
  let m := mp + (if mp < 10 then 3 else -9)
  (if m ≤ 2 then y + 1 else y, m, d)

/-- Left-pad a decimal numeral with zeros. -/
def padZeros (len : Nat) (s : String) : String :=
  if s.length < len then ⟨List.replicate (len - s.length) '0'⟩ ++ s else s

/-- Two-digit field of an ISO timestamp (values `0..99`). -/
def pad2 (n : Int) : String := padZeros 2 (toString n.toNat)

/-- Three-digit field of an ISO timestamp (values `0..999`). -/
def pad3 (n : Int) : String := padZeros 3 (toString n.toNat)

/-- The year field as JS `toISOString` prints it: four digits zero-padded in
`0..9999`, otherwise the expanded six-digit form with an explicit sign. -/
def formatYear (y : Int) : String :=
  if 0 ≤ y && y ≤ 9999 then padZeros 4 (toString y.toNat)
  else if y < 0 then "-" ++ padZeros 6 (toString (-y).toNat)
  else "+" ++ padZeros 6 (toString y.toNat)

/-- `YYYY-MM-DD` for a civil date. -/
def formatCivilDate : Int × Int × Int → String
  | (y, m, d) => formatYear y ++ "-" ++ pad2 m ++ "-" ++ pad2 d

/-- The date part of `new Date(ms).toISOString()`, i.e.
`toISOString().split('T')[0]`. -/
def isoDateOnly (ms : Int) : String :=
  formatCivilDate (civilFromDays (ms.ediv 86400000))

/-- `new Date(ms).toISOString()` (UTC model): `YYYY-MM-DDTHH:MM:SS.mmmZ`. -/
def toISOString (ms : Int) : String :=
  let msod := ms.emod 86400000
  isoDateOnly ms ++ "T" ++ pad2 (msod.ediv 3600000) ++ ":" ++
    pad2 ((msod.ediv 60000).emod 60) ++ ":" ++
    pad2 ((msod.ediv 1000).emod 60) ++ "." ++ pad3 (msod.emod 1000) ++ "Z"

/-! ## Upstream URL construction (`src/app/page.jsx`, trends route, lines 322-340) -/

/-- A character `encodeURIComponent` leaves as-is: alphanumeric or one of
`- _ . ! ~ * ' ( )`. -/
def isUnreservedURI (c : Char) : Bool :=
  c.isAlphanum || ([ '-', '_', '.', '!', '~', '*', '\'', '(', ')' ] : List Char).contains c

/-- One hex digit, uppercase, for `n < 16`. -/
def hexDigitChar (n : UInt8) : Char :=
  if n < 10 then Char.ofNat ('0'.toNat + n.toNat) else Char.ofNat ('A'.toNat + n.toNat - 10)

/-- `%XX` percent-encoding of one byte. -/
def percentEncodeByte (b : UInt8) : String :=
  ⟨['%', hexDigitChar (b / 16), hexDigitChar (b % 16)]⟩

/-- JS `encodeURIComponent`: unreserved characters pass through, everything
else is percent-encoded byte-wise in UTF-8. -/
def encodeURIComponent (s : String) : String :=
  String.join (s.data.map fun c =>
    if isUnreservedURI c then String.singleton c
    else String.join (((String.singleton c).toUTF8).toList.map percentEncodeByte))

/-- The search cutoff: `date.setDate(date.getDate() - 7)` then
`toISOString().split('T')[0]` — the date part of seven days (in ms) before now. -/
def cutoffDateString (now : Int) : String :=
  isoDateOnly (now - 7 * 86400000)

/-- The search expression: `topic:ai created:>${dateString}`. -/
def searchQuery (now : Int) : String :=
  "topic:ai created:>" ++ cutoffDateString now

/-- The full upstream URL:
`https://api.github.com/search/repositories?q=${encodeURIComponent(query)}&sort=stars&order=desc&per_page=30`. -/
def githubSearchUrl (now : Int) : String :=
  "https://api.github.com/search/repositories?q=" ++
    encodeURIComponent (searchQuery now) ++ "&sort=stars&order=desc&per_page=30"

/-! ## The trends cache and the GET route
(`src/app/page.jsx`, trends route, lines 275-449) -/

/-- The process-wide cache slot: `let cache = { data: null, lastFetch: 0 }`. -/
structure Cache where
  data : Option (List GitHubRepository)
  lastFetch : Int
deriving DecidableEq, Repr

/-- `CACHE_DURATION = 5 * 60 * 1000` milliseconds. -/
def CACHE_DURATION : Int := 5 * 60 * 1000

/-- An incoming trends request: the query parameters of `request.url`
as key/value pairs, or `none` when the URL is unavailable (the route's
build-time `catch`, which turns off the bypass). -/
structure TrendsRequest where
  urlParams : Option (List (String × String))
deriving DecidableEq, Repr

/-- `forceRefresh = url.searchParams.has('t')`, `false` when the URL cannot
be parsed. -/
def forceRefresh (req : TrendsRequest) : Bool :=
  match req.urlParams with
  | none => false
  | some ps => ps.any fun p => p.1 == "t"

/-- `isCacheValid = cache.data && cacheAge < CACHE_DURATION`. -/
def isCacheValid (now : Int) (c : Cache) : Bool :=
  c.data.isSome && decide (now - c.lastFetch < CACHE_DURATION)

/-- What the single upstream `fetch` of the GitHub search API would produce:
a 2xx response with parsed items, a non-2xx response (status and body text),
or a thrown transport/parse error with its message. -/
inductive FetchOutcome where
  | success (items : List GitHubRepository)
  | httpError (status : Int) (body : String)
  | throws (message : String)
deriving DecidableEq, Repr

/-- The upstream call did not produce a usable 2xx response. -/
def FetchOutcome.isFailure : FetchOutcome → Bool
  | .success _ => false
  | .httpError _ _ => true
  | .throws _ => true

/-- The upstream call produced a 2xx response. -/
def FetchOutcome.isSuccess : FetchOutcome → Bool
  | .success _ => true
  | .httpError _ _ => false
  | .throws _ => false

/-- `Math.round(ms / 1000)`: round half toward positive infinity. -/
def jsRoundMsToSec (ms : Int) : Int := (ms + 500).fdiv 1000

/-- The JSON body of a trends response; absent fields are `none`. -/
structure TrendsBody where
  repositories : List GitHubRepository
  cached_at : Option String
  total_count : Int
  cache_age_seconds : Option Int
  warning : Option String
  error : Option String
deriving DecidableEq, Repr

/-- A trends HTTP response: status, JSON body, and the `Cache-Control`
header when one is set. -/
structure TrendsResponse where
  status : Int
  body : TrendsBody
  cacheControl : Option String
deriving DecidableEq, Repr

/-- The observable effect of one GET request: the response, the cache state
after the request, and whether the upstream call was made. -/
structure GETResult where
  response : TrendsResponse
  cache : Cache
  upstreamCalled : Bool
deriving DecidableEq, Repr

/-- `'Cache-Control': 'public, s-maxage=300, stale-while-revalidate=600'`. -/
def cacheControlHeader : String := "public, s-maxage=300, stale-while-revalidate=600"

/-- The 500 response `{ error, repositories: [], total_count: 0 }` produced by
the outer catch when no cached data exists. -/
def errorResult (c : Cache) (msg : String) : GETResult :=
  { response :=
      { status := 500
      , body :=
          { repositories := []
          , cached_at := none
          , total_count := 0
          , cache_age_seconds := none
          , warning := none
          , error := some msg }
      , cacheControl := none }
  , cache := c
  , upstreamCalled := true }

/-- The stale-fallback 200 response (no `Cache-Control` header is set on it). -/
def staleResult (c : Cache) (d : List GitHubRepository) (ageMs : Int)
    (warningText : String) : GETResult :=
  { response :=
      { status := 200
      , body :=
          { repositories := d
          , cached_at := some (toISOString c.lastFetch)
          , total_count := (d.length : Int)
          , cache_age_seconds := some (jsRoundMsToSec ageMs)
          , warning := some warningText
          , error := none }
      , cacheControl := none }
  , cache := c
  , upstreamCalled := true }

/-- The refresh path of the route: the upstream call is made. On a 2xx
response the items are filtered and the cache slot is overwritten with the
filtered list and `now`; on a non-2xx response the route serves stale data
when a slot exists (age measured from `now`) or converts the failure into the
outer catch's 500; on a thrown error the outer catch serves stale data when a
slot exists (age measured from a fresh `Date.now()`, the parameter `now2`) or
returns the 500. -/
def refreshPath (now now2 : Int) (c : Cache) (up : FetchOutcome) : GETResult :=
  match up with
  | .success items =>
      let filtered := filteredRepositories items
      { response :=
          { status := 200
          , body :=
              { repositories := filtered
              , cached_at := some (toISOString now)
              , total_count := (filtered.length : Int)
              , cache_age_seconds := some 0
              , warning := none
              , error := none }
          , cacheControl := some cacheControlHeader }
      , cache := { data := some filtered, lastFetch := now }
      , upstreamCalled := true }
  | .httpError status _body =>
      match c.data with
      | some d =>
          staleResult c d (now - c.lastFetch)
            "Using stale cached data due to GitHub API error"
      | none =>
          errorResult c
            (if status == 403 then
               "GitHub API rate limit exceeded. Please try again later."
             else "GitHub API error: " ++ toString status)
  | .throws message =>
      match c.data with
      | some d =>
          staleResult c d (now2 - c.lastFetch)
            "Using stale cached data due to API error"
      | none => errorResult c message

/-- The valid-cache 200 response: the stored sequence and timestamp, the
cache age in seconds, the cache-control header, no upstream call, cache
untouched. -/
def freshResult (now : Int) (c : Cache) (d : List GitHubRepository) : GETResult :=
  { response :=
      { status := 200
      , body :=
          { repositories := d
          , cached_at := some (toISOString c.lastFetch)
          , total_count := (d.length : Int)
          , cache_age_seconds := some (jsRoundMsToSec (now - c.lastFetch))
          , warning := none
          , error := none }
      , cacheControl := some cacheControlHeader }
  , cache := c
  , upstreamCalled := false }

/-- `GET /api/trends`. Mirrors `if (!forceRefresh && isCacheValid)`: when no
bypass was requested, a slot exists and its age is under `CACHE_DURATION`, the
cached slot is served (with the cache-control header) and no upstream call is
made; otherwise the refresh path runs. `now` is `Date.now()` at the top of the
handler, `now2` is the `Date.now()` of the outer catch block. -/
def GET (req : TrendsRequest) (now now2 : Int) (c : Cache) (up : FetchOutcome) :
    GETResult :=
  match c.data with
  | some d =>
      if !forceRefresh req && decide (now - c.lastFetch < CACHE_DURATION) then
        freshResult now c d
      else refreshPath now now2 c up
  | none => refreshPath now now2 c up

/-! ## Summarize router (spec-modelled) -/

/-- Modelled from the spec: the supported provider enumeration of the
SummarizeRouter (`app/api/summarize/route`), whose implementation is not among
the provided source files; the spec's closed set has the two providers of the
reference behavior. -/
inductive LLMProvider where
  | openai
  | groq
deriving DecidableEq, Repr

/-- Modelled from the spec: decoding the provider selector against the closed
enumeration; any other string is not a supported value. -/
def parseProvider (s : String) : Option LLMProvider :=
  if s == "openai" then some LLMProvider.openai
  else if s == "groq" then some LLMProvider.groq
  else none

/-- Modelled from the spec: one transient summarization request — text to
summarize, caller-supplied credential, provider selector. -/
structure SummarizeRequest where
  text : String
  apiKey : String
  provider : String
deriving DecidableEq, Repr

/-- Modelled from the spec: the outcome of the validation/dispatch step of
`summarize` — a validation failure, or a dispatch to a supported provider. -/
inductive SummarizeOutcome where
  | validationError (message : String)
  | dispatched (p : LLMProvider)
deriving DecidableEq, Repr

/-- Modelled from the spec: `summarize` validation and dispatch
(the SummarizeRouter implementation is absent from the provided sources).
Fails with a validation error if the text is empty, the credential is empty,
or the provider selector is not in the closed enumeration; only otherwise
does it dispatch to the selected provider. The second component records
whether a network call to a provider endpoint is made. -/
def summarize (req : SummarizeRequest) : SummarizeOutcome × Bool :=
  if req.text == "" then (SummarizeOutcome.validationError "Text is required", false)
  else if req.apiKey == "" then (SummarizeOutcome.validationError "API key is required", false)
  else
    match parseProvider req.provider with
    | none => (SummarizeOutcome.validationError "Unsupported provider", false)
    | some p => (SummarizeOutcome.dispatched p, true)

/-! ## Helper lemmas -/

theorem string_data_append (a b : String) : (a ++ b).data = a.data ++ b.data := by
  cases a
  cases b
  rfl

theorem jsLower_data (s : String) : (jsLower s).data = s.data.map Char.toLower := rfl

theorem containsSeq_append_of_right (n : List Char) (a b : List Char)
    (h : containsSeq n b = true) : containsSeq n (a ++ b) = true := by
  induction a with
  | nil => simpa using h
  | cons x xs ih => simp [containsSeq, ih]

theorem refreshPath_upstreamCalled (now now2 : Int) (c : Cache) (up : FetchOutcome) :
    (refreshPath now now2 c up).upstreamCalled = true := by
  cases up with
  | success items => rfl
  | httpError s b => cases hc : c.data <;> simp [refreshPath, hc, staleResult, errorResult]
  | throws m => cases hc : c.data <;> simp [refreshPath, hc, staleResult, errorResult]

theorem GET_eq (req : TrendsRequest) (now now2 : Int) (c : Cache) (up : FetchOutcome) :
    (∃ d, c.data = some d ∧
        (!forceRefresh req && decide (now - c.lastFetch < CACHE_DURATION)) = true ∧
        GET req now now2 c up = freshResult now c d) ∨
      GET req now now2 c up = refreshPath now now2 c up := by
  cases hc : c.data with
  | none => exact Or.inr (by simp [GET, hc])
  | some d =>
      cases hcond : (!forceRefresh req && decide (now - c.lastFetch < CACHE_DURATION)) with
      | true => exact Or.inl ⟨d, rfl, rfl, by simp [GET, hc, hcond]⟩
      | false => exact Or.inr (by simp [GET, hc, hcond])

/-! ## Sample data for concrete witnesses -/

/-- A concrete AI repository (kept by the filter). -/
def sampleRepo : GitHubRepository :=
  { id := 1
  , name := "awesome-llm"
  , full_name := "octo/awesome-llm"
  , description := some "A curated list of LLM resources"
  , stargazers_count := 50
  , html_url := "https://github.com/octo/awesome-llm"
  , topics := ["llm", "machine-learning"]
  , updated_at := "2025-10-10T00:00:00Z"
  , language := some "Python"
  , created_at := "2025-10-08T00:00:00Z" }

/-- A concrete repository whose only AI signal is a mixed-case topic. -/
def repoTopicML : GitHubRepository :=
  { id := 2
  , name := "proj"
  , full_name := "o/proj"
  , description := none
  , stargazers_count := 3
  , html_url := ""
  , topics := ["Machine-Learning"]
  , updated_at := ""
  , language := none
  , created_at := "" }

/-- A concrete repository whose only AI signal is a mixed-case description word. -/
def repoNeuralDesc : GitHubRepository :=
  { id := 3
  , name := "zzz"
  , full_name := "o/zzz"
  , description := some "Fast NEURAL network training"
  , stargazers_count := 0
  , html_url := ""
  , topics := []
  , updated_at := ""
  , language := none
  , created_at := "" }

/-- A concrete repository with no AI-vocabulary topic and no AI-adjacent word. -/
def repoPlain : GitHubRepository :=
  { id := 4
  , name := "rust-web"
  , full_name := "o/rust-web"
  , description := none
  , stargazers_count := 5
  , html_url := ""
  , topics := ["web", "rust"]
  , updated_at := ""
  , language := none
  , created_at := "" }

/-! ## Claim theorems -/

/-- C1 (freshness gating): whenever the slot holds data, its age `now -
lastFetch` is under 5 minutes and the request carries no bypass marker
(`forceRefresh` is off), GET returns a 200 with exactly the stored sequence and
the stored fetch timestamp, no warning and no error, performs no upstream
call, and leaves the cache unchanged. -/
theorem freshness_gating (req : TrendsRequest) (now now2 : Int) (c : Cache)
    (up : FetchOutcome) (d : List GitHubRepository)
    (hdata : c.data = some d)
    (hage : now - c.lastFetch < CACHE_DURATION)
    (hnobypass : forceRefresh req = false) :
    (GET req now now2 c up).response.status = 200 ∧
    (GET req now now2 c up).response.body.repositories = d ∧
    (GET req now now2 c up).response.body.cached_at = some (toISOString c.lastFetch) ∧
    (GET req now now2 c up).response.body.warning = none ∧
    (GET req now now2 c up).response.body.error = none ∧
    (GET req now now2 c up).upstreamCalled = false ∧
    (GET req now now2 c up).cache = c := by
  have hGET : GET req now now2 c up = freshResult now c d := by
    simp [GET, hdata, hnobypass, hage]
  rw [hGET]
  exact ⟨rfl, rfl, rfl, rfl, rfl, rfl, rfl⟩

theorem freshness_gating_witness :
    ((Cache.mk (some [sampleRepo]) 800).data = some [sampleRepo] ∧
     (1000 : Int) - (Cache.mk (some [sampleRepo]) 800).lastFetch < CACHE_DURATION ∧
     forceRefresh ⟨some [("x", "1")]⟩ = false) ∧
    ((GET ⟨some [("x", "1")]⟩ 1000 1000 (Cache.mk (some [sampleRepo]) 800)
        (.throws "network down")).response.status = 200 ∧
     (GET ⟨some [("x", "1")]⟩ 1000 1000 (Cache.mk (some [sampleRepo]) 800)
        (.throws "network down")).response.body.repositories = [sampleRepo] ∧
     (GET ⟨some [("x", "1")]⟩ 1000 1000 (Cache.mk (some [sampleRepo]) 800)
        (.throws "network down")).response.body.cached_at = some (toISOString 800) ∧
     (GET ⟨some [("x", "1")]⟩ 1000 1000 (Cache.mk (some [sampleRepo]) 800)
        (.throws "network down")).response.body.warning = none ∧
     (GET ⟨some [("x", "1")]⟩ 1000 1000 (Cache.mk (some [sampleRepo]) 800)
        (.throws "network down")).response.body.error = none ∧
     (GET ⟨some [("x", "1")]⟩ 1000 1000 (Cache.mk (some [sampleRepo]) 800)
        (.throws "network down")).upstreamCalled = false ∧
     (GET ⟨some [("x", "1")]⟩ 1000 1000 (Cache.mk (some [sampleRepo]) 800)
        (.throws "network down")).cache = Cache.mk (some [sampleRepo]) 800) :=
  ⟨⟨rfl, by decide, by decide⟩,
   freshness_gating ⟨some [("x", "1")]⟩ 1000 1000 (Cache.mk (some [sampleRepo]) 800)
     (.throws "network down") [sampleRepo] rfl (by decide) (by decide)⟩

/-- C2 (bypass forces refresh): for every cache state and upstream outcome, if
the request URL's query parameters contain the key `t` — with any value — the
route always performs the upstream call, even when the cached data is younger
than 5 minutes. -/
theorem bypass_forces_refresh (ps : List (String × String)) (v : String)
    (now now2 : Int) (c : Cache) (up : FetchOutcome)
    (hmem : ("t", v) ∈ ps) :
    (GET ⟨some ps⟩ now now2 c up).upstreamCalled = true := by
  have hforce : forceRefresh ⟨some ps⟩ = true := by
    simp only [forceRefresh, List.any_eq_true]
    exact ⟨("t", v), hmem, rfl⟩
  cases hc : c.data with
  | none => simp [GET, hc, refreshPath_upstreamCalled]
  | some d => simp [GET, hc, hforce, refreshPath_upstreamCalled]

theorem bypass_forces_refresh_witness :
    ("t", "1760000000000") ∈ [("t", "1760000000000")] ∧
    (GET ⟨some [("t", "1760000000000")]⟩ 1000 1000 (Cache.mk (some [sampleRepo]) 999)
        (.success [])).upstreamCalled = true :=
  ⟨by decide,
   bypass_forces_refresh [("t", "1760000000000")] "1760000000000" 1000 1000
     (Cache.mk (some [sampleRepo]) 999) (.success []) (by decide)⟩

/-- C3 (stale fallback): whenever the slot holds data, the upstream call is
made and it fails (non-2xx response or thrown error), the route answers 200
with no error field, the prior cached sequence, its original fetch timestamp, a
non-empty warning, and the stale cache age in seconds (rounded from the
handler's clock reading for a non-2xx response, from the catch block's clock
reading for a thrown error). -/
theorem stale_fallback (req : TrendsRequest) (now now2 : Int) (c : Cache)
    (up : FetchOutcome) (d : List GitHubRepository)
    (hdata : c.data = some d)
    (hfail : up.isFailure = true)
    (hcalled : (GET req now now2 c up).upstreamCalled = true) :
    (GET req now now2 c up).response.status = 200 ∧
    (GET req now now2 c up).response.body.error = none ∧
    (GET req now now2 c up).response.body.repositories = d ∧
    (GET req now now2 c up).response.body.cached_at = some (toISOString c.lastFetch) ∧
    (∃ w, (GET req now now2 c up).response.body.warning = some w ∧ w ≠ "") ∧
    ((GET req now now2 c up).response.body.cache_age_seconds
        = some (jsRoundMsToSec (now - c.lastFetch)) ∨
     (GET req now now2 c up).response.body.cache_age_seconds
        = some (jsRoundMsToSec (now2 - c.lastFetch))) := by
  rcases GET_eq req now now2 c up with ⟨d', _, _, hGET⟩ | hGET
  · rw [hGET] at hcalled
    exact absurd hcalled (by simp [freshResult])
  · rw [hGET]
    cases up with
    | success items => simp [FetchOutcome.isFailure] at hfail
    | httpError s b =>
        simp only [refreshPath, hdata, staleResult]
        exact ⟨trivial, trivial, trivial, trivial, ⟨_, rfl, by decide⟩, Or.inl trivial⟩
    | throws m =>
        simp only [refreshPath, hdata, staleResult]
        exact ⟨trivial, trivial, trivial, trivial, ⟨_, rfl, by decide⟩, Or.inr trivial⟩

theorem stale_fallback_witness :
    ((Cache.mk (some [sampleRepo]) 0).data = some [sampleRepo] ∧
     (FetchOutcome.httpError 403 "rate limited").isFailure = true ∧
     (GET ⟨some []⟩ 600000 600000 (Cache.mk (some [sampleRepo]) 0)
        (.httpError 403 "rate limited")).upstreamCalled = true) ∧
    ((GET ⟨some []⟩ 600000 600000 (Cache.mk (some [sampleRepo]) 0)
        (.httpError 403 "rate limited")).response.status = 200 ∧
     (GET ⟨some []⟩ 600000 600000 (Cache.mk (some [sampleRepo]) 0)
        (.httpError 403 "rate limited")).response.body.error = none ∧
     (GET ⟨some []⟩ 600000 600000 (Cache.mk (some [sampleRepo]) 0)
        (.httpError 403 "rate limited")).response.body.repositories = [sampleRepo] ∧
     (GET ⟨some []⟩ 600000 600000 (Cache.mk (some [sampleRepo]) 0)
        (.httpError 403 "rate limited")).response.body.cached_at
          = some (toISOString 0) ∧
     (∃ w, (GET ⟨some []⟩ 600000 600000 (Cache.mk (some [sampleRepo]) 0)
        (.httpError 403 "rate limited")).response.body.warning = some w ∧ w ≠ "") ∧
     ((GET ⟨some []⟩ 600000 600000 (Cache.mk (some [sampleRepo]) 0)
        (.httpError 403 "rate limited")).response.body.cache_age_seconds
          = some (jsRoundMsToSec (600000 - 0)) ∨
      (GET ⟨some []⟩ 600000 600000 (Cache.mk (some [sampleRepo]) 0)
        (.httpError 403 "rate limited")).response.body.cache_age_seconds
          = some (jsRoundMsToSec (600000 - 0)))) :=
  ⟨⟨rfl, rfl, by decide⟩,
   stale_fallback ⟨some []⟩ 600000 600000 (Cache.mk (some [sampleRepo]) 0)
     (.httpError 403 "rate limited") [sampleRepo] rfl rfl (by decide)⟩

/-- C4 (no-data failure): when the slot is empty and the upstream call fails
(non-2xx response or thrown error), the route answers status 500 with an empty
repositories sequence, a `total_count` of zero, and an error string. -/
theorem no_data_failure (req : TrendsRequest) (now now2 : Int) (c : Cache)
    (up : FetchOutcome)
    (hdata : c.data = none)
    (hfail : up.isFailure = true) :
    (GET req now now2 c up).response.status = 500 ∧
    (GET req now now2 c up).response.body.repositories = [] ∧
    (GET req now now2 c up).response.body.total_count = 0 ∧
    (∃ m, (GET req now now2 c up).response.body.error = some m) := by
  have hGET : GET req now now2 c up = refreshPath now now2 c up := by
    simp [GET, hdata]
  rw [hGET]
  cases up with
  | success items => simp [FetchOutcome.isFailure] at hfail
  | httpError s b =>
      simp only [refreshPath, hdata, errorResult]
      exact ⟨trivial, trivial, trivial, ⟨_, rfl⟩⟩
  | throws m =>
      simp only [refreshPath, hdata, errorResult]
      exact ⟨trivial, trivial, trivial, ⟨_, rfl⟩⟩

theorem no_data_failure_witness :
    ((Cache.mk none 0).data = none ∧
     (FetchOutcome.throws "fetch failed").isFailure = true) ∧
    ((GET ⟨some []⟩ 1000 1001 (Cache.mk none 0) (.throws "fetch failed")).response.status = 500 ∧
     (GET ⟨some []⟩ 1000 1001 (Cache.mk none 0) (.throws "fetch failed")).response.body.repositories = [] ∧
     (GET ⟨some []⟩ 1000 1001 (Cache.mk none 0) (.throws "fetch failed")).response.body.total_count = 0 ∧
     (∃ m, (GET ⟨some []⟩ 1000 1001 (Cache.mk none 0) (.throws "fetch failed")).response.body.error = some m)) :=
  ⟨⟨rfl, rfl⟩,
   no_data_failure ⟨some []⟩ 1000 1001 (Cache.mk none 0) (.throws "fetch failed") rfl rfl⟩

/-- Formalisation of the claim's phrase "the calendar date exactly 7 days
before T (date precision)": the civil date whose epoch-day number is T's
epoch-day number minus 7, printed `YYYY-MM-DD`. -/
def calendarDateSevenDaysBefore (t : Int) : String :=
  formatCivilDate (civilFromDays (t.ediv 86400000 - 7))

/-- C5 (query cutoff correctness): for every current time `t`, the constructed
upstream URL is the single-page GitHub search request whose query requires the
`ai` topic and a creation date strictly after (`created:>`) the calendar date
exactly 7 days before `t`, sorted by stars descending and capped at 30 items. -/
theorem query_cutoff_correct (t : Int) :
    githubSearchUrl t =
      "https://api.github.com/search/repositories?q=" ++
        encodeURIComponent ("topic:ai created:>" ++ calendarDateSevenDaysBefore t) ++
        "&sort=stars&order=desc&per_page=30" := by
  have hday : (t - 7 * 86400000).ediv 86400000 = t.ediv 86400000 - 7 := by
    show (t - 7 * 86400000) / 86400000 = t / 86400000 - 7
    have h2 : t - 7 * 86400000 = t + -7 * 86400000 := by ring
    rw [h2, @Int.add_mul_ediv_right t (-7) 86400000 (by norm_num)]
    ring
  simp only [githubSearchUrl, searchQuery, cutoffDateString, isoDateOnly,
    calendarDateSevenDaysBefore, hday]

/-- C6 (filter inclusion and exclusion): a repository with a topic equal to
`machine-learning` up to letter case is kept; a repository whose description
contains `neural` up to letter case is kept; a repository for which neither the
topic-vocabulary check nor the name/description word check fires is excluded;
and the star count never excludes anything — the verdict coincides with the
disjunction of the two AI checks. -/
theorem filter_inclusion_exclusion (r : GitHubRepository) :
    ((∃ t, t ∈ r.topics ∧ jsLower t = "machine-learning") → trendsKeep r = true) ∧
    ((∃ dsc, r.description = some dsc ∧ jsIncludes (jsLower dsc) "neural" = true) →
        trendsKeep r = true) ∧
    (hasAITopic r = false ∧ nameOrDescHasAI r = false → trendsKeep r = false) ∧
    trendsKeep r = (hasAITopic r || nameOrDescHasAI r) := by
  refine ⟨?_, ?_, ?_, ?_⟩
  · rintro ⟨t, ht, hlow⟩
    have htopic : hasAITopic r = true := by
      simp only [hasAITopic, List.any_eq_true]
      refine ⟨t, ht, ?_⟩
      refine ⟨"machine-learning", by simp [aiTopics], ?_⟩
      rw [hlow]
      decide
    simp [trendsKeep, htopic]
  · rintro ⟨dsc, hdesc, hinc⟩
    have hname : nameOrDescHasAI r = true := by
      unfold nameOrDescHasAI
      rw [hdesc]
      have hx : jsIncludes (jsLower (r.name ++ " " ++ dsc)) "neural" = true := by
        unfold jsIncludes at hinc ⊢
        have hshape : (jsLower (r.name ++ " " ++ dsc)).data
            = (r.name.data.map Char.toLower ++ (" " : String).data.map Char.toLower) ++
              dsc.data.map Char.toLower := by
          simp [jsLower_data, string_data_append, List.map_append, List.append_assoc]
        rw [hshape]
        exact containsSeq_append_of_right _ _ _ hinc
      simp [matchesAIRegex, hx]
    simp [trendsKeep, hname]
  · rintro ⟨h1, h2⟩
    simp [trendsKeep, h1, h2]
  · simp [trendsKeep]

theorem filter_inclusion_exclusion_witness :
    (("Machine-Learning" ∈ repoTopicML.topics ∧
        jsLower "Machine-Learning" = "machine-learning") ∧
     (repoNeuralDesc.description = some "Fast NEURAL network training" ∧
        jsIncludes (jsLower "Fast NEURAL network training") "neural" = true) ∧
     (hasAITopic repoPlain = false ∧ nameOrDescHasAI repoPlain = false)) ∧
    (trendsKeep repoTopicML = true ∧
     trendsKeep repoNeuralDesc = true ∧
     trendsKeep repoPlain = false) :=
  ⟨⟨⟨by decide, by decide⟩, ⟨rfl, by decide⟩, ⟨by decide, by decide⟩⟩,
   ⟨(filter_inclusion_exclusion repoTopicML).1 ⟨"Machine-Learning", by decide, by decide⟩,
    (filter_inclusion_exclusion repoNeuralDesc).2.1
      ⟨"Fast NEURAL network training", rfl, by decide⟩,
    (filter_inclusion_exclusion repoPlain).2.2.1 ⟨by decide, by decide⟩⟩⟩

/-- C7 (rank preservation): for every input sequence, the filtered output is a
subsequence of the input (surviving elements keep their relative order; nothing
is re-sorted); in particular an input sorted by star count descending stays
sorted by star count descending after filtering. -/
theorem rank_preservation (l : List GitHubRepository) :
    List.Sublist (filteredRepositories l) l ∧
    (List.Pairwise (fun a b => b.stargazers_count ≤ a.stargazers_count) l →
      List.Pairwise (fun a b => b.stargazers_count ≤ a.stargazers_count)
        (filteredRepositories l)) := by
  refine ⟨List.filter_sublist l, fun h => ?_⟩
  exact h.sublist (List.filter_sublist l)

theorem rank_preservation_witness :
    List.Pairwise (fun a b => b.stargazers_count ≤ a.stargazers_count)
      [sampleRepo, repoTopicML] ∧
    (List.Sublist (filteredRepositories [sampleRepo, repoTopicML]) [sampleRepo, repoTopicML] ∧
     List.Pairwise (fun a b => b.stargazers_count ≤ a.stargazers_count)
       (filteredRepositories [sampleRepo, repoTopicML])) :=
  ⟨by decide,
   ⟨(rank_preservation [sampleRepo, repoTopicML]).1,
    (rank_preservation [sampleRepo, repoTopicML]).2 (by decide)⟩⟩

/-- C8 counterexample: not every GET /trends response carries the caching
directive. With a populated but expired slot and a failing upstream, the
stale-fallback response is built without the `Cache-Control` header. -/
theorem cache_control_not_universal :
    ¬ (GET ⟨some []⟩ 1000000 1000000 (Cache.mk (some [sampleRepo]) 0)
        (.httpError 500 "")).response.cacheControl = some cacheControlHeader := by
  decide

/-- C8 (amended): a GET /trends response carries
`Cache-Control: public, s-maxage=300, stale-while-revalidate=600` exactly when
it is served from a valid cache hit without bypass or from a successful
refresh; the stale-fallback responses and the no-data 500 response carry no
caching directive. -/
theorem cache_control_amended (req : TrendsRequest) (now now2 : Int) (c : Cache)
    (up : FetchOutcome) :
    (GET req now now2 c up).response.cacheControl =
      (if (!forceRefresh req && isCacheValid now c) || up.isSuccess
       then some cacheControlHeader else none) := by
  cases hc : c.data with
  | none =>
      cases up <;>
        simp [GET, refreshPath, hc, isCacheValid, FetchOutcome.isSuccess,
          staleResult, errorResult]
  | some d =>
      cases hforce : forceRefresh req with
      | true =>
          cases up <;>
            simp [GET, refreshPath, hc, hforce, isCacheValid,
              FetchOutcome.isSuccess, staleResult, errorResult]
      | false =>
          cases hlt : decide (now - c.lastFetch < CACHE_DURATION) with
          | true =>
              simp [GET, freshResult, hc, hforce, hlt, isCacheValid]
          | false =>
              cases up <;>
                simp [GET, refreshPath, hc, hforce, hlt, isCacheValid,
                  FetchOutcome.isSuccess, staleResult, errorResult]

/-- C9 (summarize validation): a summarization request with empty text, an
empty credential, or a provider selector outside the supported enumeration
fails with a validation error and makes no network call to any provider
endpoint (SummarizeRouter modelled from the spec; its implementation is not in
the provided sources). -/
theorem summarize_validation (req : SummarizeRequest)
    (h : req.text = "" ∨ req.apiKey = "" ∨ parseProvider req.provider = none) :
    (∃ m, (summarize req).1 = SummarizeOutcome.validationError m) ∧
    (summarize req).2 = false := by
  rcases h with ht | hk | hp
  · simp [summarize, ht]
  · rcases hteq : req.text == "" with _ | _
    · simp [summarize, hteq, hk]
    · simp [summarize, hteq]
  · rcases hteq : req.text == "" with _ | _
    · rcases hkeq : req.apiKey == "" with _ | _
      · simp [summarize, hteq, hkeq, hp]
      · simp [summarize, hteq, hkeq]
    · simp [summarize, hteq]

theorem summarize_validation_witness :
    ((SummarizeRequest.mk "Repo: nice tool" "sk-123" "bedrock").text = "" ∨
     (SummarizeRequest.mk "Repo: nice tool" "sk-123" "bedrock").apiKey = "" ∨
     parseProvider (SummarizeRequest.mk "Repo: nice tool" "sk-123" "bedrock").provider = none) ∧
    ((∃ m, (summarize (SummarizeRequest.mk "Repo: nice tool" "sk-123" "bedrock")).1
        = SummarizeOutcome.validationError m) ∧
     (summarize (SummarizeRequest.mk "Repo: nice tool" "sk-123" "bedrock")).2 = false) :=
  ⟨Or.inr (Or.inr (by decide)),
   summarize_validation (SummarizeRequest.mk "Repo: nice tool" "sk-123" "bedrock")
     (Or.inr (Or.inr (by decide)))⟩

/-- C10 (cache-slot write atomicity on failure): the cache slot after a GET
request is either exactly the prior slot, or — only when the upstream call
returned a 2xx — the record whose two fields are assigned together: the
filtered fetched sequence and the handler's timestamp. In particular on every
failure path (non-2xx response, thrown error, no-data 500) the slot is
unchanged. -/
theorem cache_write_atomicity (req : TrendsRequest) (now now2 : Int) (c : Cache)
    (up : FetchOutcome) :
    (up.isFailure = true → (GET req now now2 c up).cache = c) ∧
    ((GET req now now2 c up).cache = c ∨
      ∃ items, up = FetchOutcome.success items ∧
        (GET req now now2 c up).cache =
          Cache.mk (some (filteredRepositories items)) now) := by
  rcases GET_eq req now now2 c up with ⟨d, hd, hcond, hGET⟩ | hGET
  · rw [hGET]
    exact ⟨fun _ => rfl, Or.inl rfl⟩
  · rw [hGET]
    cases up with
    | success items =>
        refine ⟨fun hfail => ?_, Or.inr ⟨items, rfl, rfl⟩⟩
        simp [FetchOutcome.isFailure] at hfail
    | httpError s b =>
        cases hc : c.data <;>
          simp [refreshPath, hc, staleResult, errorResult]
    | throws m =>
        cases hc : c.data <;>
          simp [refreshPath, hc, staleResult, errorResult]

theorem cache_write_atomicity_witness :
    (FetchOutcome.httpError 502 "bad gateway").isFailure = true ∧
    (GET ⟨some [("t", "9")]⟩ 5000 5000 (Cache.mk (some [sampleRepo]) 4000)
        (.httpError 502 "bad gateway")).cache = Cache.mk (some [sampleRepo]) 4000 :=
  ⟨rfl,
   (cache_write_atomicity ⟨some [("t", "9")]⟩ 5000 5000
      (Cache.mk (some [sampleRepo]) 4000) (.httpError 502 "bad gateway")).1 rfl⟩
